import Mathlib

/-!
Verification of the zdq command-line front end (src/index.js): a shallow
embedding of its token classification, command resolution, configuration
store handling and per-configuration build/run dispatch loop, together
with theorems settling the specification claims.

External collaborators are modelled at their interface boundary: the
exit status of each spawned child process is supplied by an oracle, the
persisted configuration file is supplied as an optional pre-parsed
store, and the host CPU architecture is a string parameter.
-/

namespace Zdq

/-- A configuration descriptor's `zig` sub-record as read from the
persisted JSON document.  Fields are optional because the file is used
without validation: a missing JS property reads as `undefined`,
modelled by `none`. -/
structure ZigDoc where
  arch : Option String
  platform : Option String
  deriving DecidableEq, Repr

/-- A configuration descriptor's `docker` sub-record (see `ZigDoc`). -/
structure DockerDoc where
  arch : Option String
  platform : Option String
  image : Option String
  deriving DecidableEq, Repr

/-- A configuration descriptor: a parsed JSON object with optional
`zig` and `docker` sub-records. -/
structure ConfigDoc where
  zig : Option ZigDoc
  docker : Option DockerDoc
  deriving DecidableEq, Repr

/-- Configuration store: the parsed JSON object mapping configuration
name to descriptor, in insertion order. -/
abbrev Store := List (String × ConfigDoc)

/-- The member names of `Object.prototype` inherited by plain JS
objects (both object literals and `JSON.parse` results): bracket
lookup on the store finds these even when they are not own keys, and
every one of them evaluates to a truthy value (a function object, or
for `__proto__` the prototype object itself). -/
def objectProtoProps : List String :=
  ["constructor", "hasOwnProperty", "isPrototypeOf", "propertyIsEnumerable",
   "toLocaleString", "toString", "valueOf",
   "__defineGetter__", "__defineSetter__", "__lookupGetter__", "__lookupSetter__",
   "__proto__"]

/-- JS property lookup `availableConfigs[name]` (src/index.js line 23):
own properties first, then the `Object.prototype` chain.  An inherited
hit is a truthy function object, not a descriptor document, so
`if (!selected)` does not fire on it and resolution proceeds; at every
later use in this program (`[ selected ]`, destructuring `zig` and
`docker`) such a value behaves exactly as a document whose `zig` and
`docker` properties read as `undefined`, so it is embedded as
`ConfigDoc.mk none none`. -/
def lookupStore (store : Store) (k : String) : Option ConfigDoc :=
  match (store.find? (fun p => p.1 == k)).map Prod.snd with
  | some c => some c
  | none => if objectProtoProps.contains k then some ⟨none, none⟩ else none

/-- `value.startsWith('-')` from src/index.js line 12: a token is a
flag token exactly when its first character is `-`. -/
def strStartsWithDash (v : String) : Bool :=
  match v.data with
  | [] => false
  | c :: _ => c == '-'

/-- The token record `{ value, flags, consumed }` built for each CLI
argument (src/index.js lines 11-13). -/
structure Token where
  value : String
  flags : Bool
  consumed : Bool
  deriving DecidableEq, Repr

/-- One token per raw argument, `consumed` initially false. -/
def mkToken (v : String) : Token := ⟨v, strStartsWithDash v, false⟩

/-- `process.argv.slice(2).map(...)` (lines 11-13). -/
def tokensOf (argv : List String) : List Token := argv.map mkToken

/-- `tokens.find(t => !t.flags)` (line 14). -/
def findNonFlag (ts : List Token) : Option Token := ts.find? (fun t => !t.flags)

/-- `tokens.find(t => !t.flags && !t.consumed)` (lines 29 and 39). -/
def findAvail (ts : List Token) : Option Token :=
  ts.find? (fun t => !t.flags && !t.consumed)

/-- `found.consumed = true`: the source mutates the token object that
the preceding `find` returned, i.e. the first unconsumed non-flag
token of the list. -/
def consumeFirst : List Token → List Token
  | [] => []
  | t :: ts =>
    if !t.flags && !t.consumed then { t with consumed := true } :: ts
    else t :: consumeFirst ts

/-- `tokens.filter(t => !t.consumed).map(t => t.value)` (line 46). -/
def extrasOf (ts : List Token) : List String :=
  (ts.filter (fun t => !t.consumed)).map Token.value

/-- `const availableCommands = [ 'test', 'run', 'list', 'help' ]`
(line 8). -/
def availableCommands : List String := ["test", "run", "list", "help"]

/-- Host temporary directory `os.tmpdir()` (external host
introspection; the concrete value is irrelevant to every claim). -/
def tmpdir : String := "/tmp"

/-- Rendering of a possibly-`undefined` JS value inside a template
literal: `undefined` prints as the string `undefined` and does not
throw. -/
def jsStr : Option String → String
  | none => "undefined"
  | some s => s

/-- The last path segment of a POSIX path (part of the model of the
external Node `path.parse`). -/
def takeAfterLastSlash (s : String) : String :=
  String.mk ((s.data.reverse.takeWhile (fun c => c != '/')).reverse)

/-- Node `path.parse(p).name` (external library function, modelled at
its interface for plain POSIX paths): the last path segment with its
final extension removed; a dot in first position of the segment does
not start an extension. -/
def pathNameOf (s : String) : String :=
  match takeAfterLastSlash s with
  | base =>
    match (base.data.reverse.takeWhile (fun c => c != '.')).length with
    | extLen =>
      if extLen = base.data.length then base
      else if base.data.length = extLen + 1 then base
      else String.mk (base.data.take (base.data.length - extLen - 1))

/-- The `zig test` argument array of `runTest` (src/index.js lines
75-84): the extras are spread verbatim after the file argument. -/
def zigTestArgs (za zp path fv : String) (extras : List String) : List String :=
  ["test", "--test-no-exec", "-target", za ++ "-" ++ zp,
   "-femit-bin=" ++ path, fv] ++ extras

/-- The `zig build-exe` argument array of `runProgram` (src/index.js
lines 114-121). -/
def zigBuildArgs (za zp path fv : String) (extras : List String) : List String :=
  ["build-exe", "-target", za ++ "-" ++ zp,
   "-femit-bin=" ++ path, fv] ++ extras

/-- `runTest(file, config, extras)` (src/index.js lines 68-105).  The
exit statuses of the two child processes are supplied by `zigOk` (the
`zig test` compile step exits 0) and `dockerOk` (the `docker run` step
exits 0).  The result is the contribution to the failure counter
together with the list of processes actually spawned, in order.

Any error thrown while the descriptor is dereferenced is caught by the
enclosing `try` and turned into contribution 1: a missing `file` token
(`file.value`), a missing `zig` sub-record (`zig.arch` in the
`path.join` call), a missing `zig.arch`/`zig.platform` (non-string
argument to `path.join`), a missing `docker` sub-record
(`docker.platform` in the progress template) and a missing
`docker.image` (non-string `spawn` argument) all throw `TypeError`
before the docker process is spawned.  A missing `docker.arch` or
`docker.platform` alone does not throw: the template literal renders
`undefined` and the malformed platform string is passed to docker.
`mkdir` with `recursive: true` is idempotent and modelled as
succeeding. -/
def runTest : Option String → ConfigDoc → List String → Bool → Bool →
    Nat × List (String × List String)
  | none, _, _, _, _ => (1, [])
  | some fv, cfg, extras, zigOk, dockerOk =>
    match cfg.zig with
    | none => (1, [])
    | some z =>
      match z.arch, z.platform with
      | some za, some zp =>
        let name := pathNameOf fv ++ ".test"
        let dir := tmpdir ++ "/" ++ "zdq" ++ "/" ++ za ++ "/" ++ zp
        let path := dir ++ "/" ++ name
        let zigArgs := zigTestArgs za zp path fv extras
        if zigOk then
          match cfg.docker with
          | none => (1, [("zig", zigArgs)])
          | some d =>
            match d.image with
            | none => (1, [("zig", zigArgs)])
            | some img =>
              let dirVM := "/home/zdq/" ++ za ++ "/" ++ zp
              let dockerArgs := ["run", "--platform", jsStr d.platform ++ "/" ++ jsStr d.arch,
                                 "-v", dir ++ ":" ++ dirVM, "-w", dirVM, "--rm", "-t", "-q",
                                 img, "./" ++ name]
              if dockerOk then (0, [("zig", zigArgs), ("docker", dockerArgs)])
              else (1, [("zig", zigArgs), ("docker", dockerArgs)])
        else (1, [("zig", zigArgs)])
      | _, _ => (1, [])

/-- `runProgram(file, config, extras)` (src/index.js lines 107-142):
identical staging to `runTest` but builds an executable (`build-exe`,
no `.test` suffix) and runs the container without `-q`. -/
def runProgram : Option String → ConfigDoc → List String → Bool → Bool →
    Nat × List (String × List String)
  | none, _, _, _, _ => (1, [])
  | some fv, cfg, extras, zigOk, dockerOk =>
    match cfg.zig with
    | none => (1, [])
    | some z =>
      match z.arch, z.platform with
      | some za, some zp =>
        let name := pathNameOf fv
        let dir := tmpdir ++ "/" ++ "zdq" ++ "/" ++ za ++ "/" ++ zp
        let path := dir ++ "/" ++ name
        let zigArgs := zigBuildArgs za zp path fv extras
        if zigOk then
          match cfg.docker with
          | none => (1, [("zig", zigArgs)])
          | some d =>
            match d.image with
            | none => (1, [("zig", zigArgs)])
            | some img =>
              let dirVM := "/home/zdq/" ++ za ++ "/" ++ zp
              let dockerArgs := ["run", "--platform", jsStr d.platform ++ "/" ++ jsStr d.arch,
                                 "-v", dir ++ ":" ++ dirVM, "-w", dirVM, "--rm", "-t",
                                 img, "./" ++ name]
              if dockerOk then (0, [("zig", zigArgs), ("docker", dockerArgs)])
              else (1, [("zig", zigArgs), ("docker", dockerArgs)])
        else (1, [("zig", zigArgs)])
      | _, _ => (1, [])

/-- Result of the per-configuration dispatch loop (lines 48-64):
aggregated failure counter, processes spawned in order, number of
configuration-listing renderings, number of help renderings, and
whether the loop `return`ed early (the `list`/`help` cases). -/
structure LoopOut where
  failures : Nat
  spawns : List (String × List String)
  listingCount : Nat
  helpCount : Nat
  earlyReturn : Bool
  deriving DecidableEq, Repr

/-- The `for (const config of configs) { switch (command.value) ... }`
loop (lines 48-64).  `oracle i` supplies the (compile, run) child
process successes for the configuration at position `i`.  The `list`
and `help` cases render once and `return` from the enclosing async
function, skipping the remaining configurations and the final
`process.exit`; a command value matching no case leaves the iteration
with no effect. -/
def dispatchLoop (cmd : String) (file : Option String) (extras : List String)
    (oracle : Nat → Bool × Bool) : List ConfigDoc → Nat → LoopOut
  | [], _ => ⟨0, [], 0, 0, false⟩
  | c :: rest, i =>
    if cmd = "test" then
      let r := runTest file c extras (oracle i).1 (oracle i).2
      let t := dispatchLoop cmd file extras oracle rest (i + 1)
      ⟨r.1 + t.failures, r.2 ++ t.spawns, t.listingCount, t.helpCount, t.earlyReturn⟩
    else if cmd = "run" then
      let r := runProgram file c extras (oracle i).1 (oracle i).2
      let t := dispatchLoop cmd file extras oracle rest (i + 1)
      ⟨r.1 + t.failures, r.2 ++ t.spawns, t.listingCount, t.helpCount, t.earlyReturn⟩
    else if cmd = "list" then ⟨0, [], 1, 0, true⟩
    else if cmd = "help" then ⟨0, [], 0, 1, true⟩
    else dispatchLoop cmd file extras oracle rest (i + 1)

/-- `process.exit(failures ? 1 : 0)` (line 65). -/
def exitCode (failures : Nat) : Nat := if failures = 0 then 0 else 1

/-- A fully populated configuration (every field present), the shape
produced by `getDefaultConfig`. -/
structure ZigFull where
  arch : String
  platform : String
  deriving DecidableEq, Repr

/-- See `ZigFull`. -/
structure DockerFull where
  arch : String
  platform : String
  image : String
  deriving DecidableEq, Repr

/-- See `ZigFull`. -/
structure ConfigFull where
  zig : ZigFull
  docker : DockerFull
  deriving DecidableEq, Repr

/-- A JS object literal with all fields present, read as a descriptor
document. -/
def ConfigFull.toDoc (c : ConfigFull) : ConfigDoc :=
  { zig := some { arch := some c.zig.arch, platform := some c.zig.platform },
    docker := some { arch := some c.docker.arch, platform := some c.docker.platform,
                     image := some c.docker.image } }

/-- `getDefaultConfig()` (src/index.js lines 166-178); `hostArch` is
the value of `os.arch()` (external host introspection). -/
def getDefaultConfig (hostArch : String) : ConfigFull :=
  { zig := { arch := if hostArch = "x64" then "aarch64" else "x86_64",
             platform := "linux" },
    docker := { arch := if hostArch = "x64" then "arm64" else "amd64",
                platform := "linux",
                image := "ubuntu" } }

/-- `loadConfigurations()` (src/index.js lines 180-189).  `loaded` is
the result of reading and parsing `<home>/.zdq.json`: `some store` when
both the read and `JSON.parse` succeed, `none` when either throws for
any reason; in the latter case the catch block synthesizes
`{ [def.docker.arch]: def }` from the host default. -/
def loadConfigurations (hostArch : String) (loaded : Option Store) : Store :=
  match loaded with
  | some s => s
  | none => [((getDefaultConfig hostArch).docker.arch, (getDefaultConfig hostArch).toDoc)]

/-- The resolved invocation handed to the dispatch loop: command value,
optional file argument, pass-through extras and the selected
configurations. -/
structure DispatchInfo where
  command : String
  file : Option String
  extras : List String
  configs : List ConfigDoc
  deriving DecidableEq, Repr

/-- Observable outcome of one whole invocation: process exit status,
number of help-text renderings, number of configuration-listing
renderings, messages written to the error stream, processes spawned in
order, configuration names looked up as selectors, the resolved
invocation when the dispatch loop was reached, and the final failure
counter when `process.exit(failures ? 1 : 0)` ran. -/
structure Outcome where
  exit : Nat
  helpCount : Nat
  listingCount : Nat
  errors : List String
  spawns : List (String × List String)
  lookups : List String
  dispatched : Option DispatchInfo
  failures : Option Nat
  deriving DecidableEq, Repr

/-- Lines 15-18: no positional token at all prints help and exits 0. -/
def helpOnlyOutcome : Outcome :=
  ⟨0, 1, 0, [], [], [], none, none⟩

/-- Lines 24-28: unknown configuration selector renders the listing,
logs the error and exits 1. -/
def notFoundOutcome (v : String) : Outcome :=
  ⟨1, 0, 1, ["error: configuration \"" ++ v ++ "\" not found\n"], [], [v], none, none⟩

/-- Lines 29-34: selector consumed but no positional token left for the
command prints help, logs the (misspelled) error and exits 1. -/
def noCommandOutcome (v : String) : Outcome :=
  ⟨1, 1, 0, ["error: expected command arument\n"], [], [v], none, none⟩

/-- Lines 39-44: `run`/`test` with no positional token left for the
filename logs the error and exits 1 (no help text in this branch). -/
def expectedFilenameOutcome (lk : List String) : Outcome :=
  ⟨1, 0, 0, ["error: expected filename\n"], [], lk, none, none⟩

/-- `(selected) ? [ selected ] : Object.values(availableConfigs)`
(line 47). -/
def selectedConfigs : Option ConfigDoc → Store → List ConfigDoc
  | some c, _ => [c]
  | none, store => store.map Prod.snd

/-- Lines 46-65: extras collection, configuration selection, dispatch
loop and final exit.  When the loop `return`s early (`list`/`help`) the
process exits normally with status 0 and the final counter is never
consulted. -/
def finish (lk : List String) (oracle : Nat → Bool × Bool) (info : DispatchInfo) : Outcome :=
  { exit := if (dispatchLoop info.command info.file info.extras oracle info.configs 0).earlyReturn
            then 0
            else exitCode (dispatchLoop info.command info.file info.extras oracle info.configs 0).failures,
    helpCount := (dispatchLoop info.command info.file info.extras oracle info.configs 0).helpCount,
    listingCount := (dispatchLoop info.command info.file info.extras oracle info.configs 0).listingCount,
    errors := [],
    spawns := (dispatchLoop info.command info.file info.extras oracle info.configs 0).spawns,
    lookups := lk,
    dispatched := some info,
    failures := if (dispatchLoop info.command info.file info.extras oracle info.configs 0).earlyReturn
                then none
                else some (dispatchLoop info.command info.file info.extras oracle info.configs 0).failures }

/-- Lines 36-47: the resolved command token is marked consumed; `run`
and `test` additionally require and consume a filename token; the
remaining unconsumed tokens become extras. -/
def resolveRest (tokens : List Token) (selected : Option ConfigDoc) (cmdTok : Token)
    (lk : List String) (store : Store) (oracle : Nat → Bool × Bool) : Outcome :=
  if (["run", "test"]).contains cmdTok.value then
    match findAvail (consumeFirst tokens) with
    | none => expectedFilenameOutcome lk
    | some fileTok =>
      finish lk oracle
        { command := cmdTok.value, file := some fileTok.value,
          extras := extrasOf (consumeFirst (consumeFirst tokens)),
          configs := selectedConfigs selected store }
  else
    finish lk oracle
      { command := cmdTok.value, file := none,
        extras := extrasOf (consumeFirst tokens),
        configs := selectedConfigs selected store }

/-- The whole invocation (the async IIFE, src/index.js lines 10-66):
token classification, selector/command resolution and dispatch.
`store` is the configuration store produced by `loadConfigurations`
and `oracle` supplies child-process exit successes per configuration
position. -/
def mainRun (argv : List String) (store : Store) (oracle : Nat → Bool × Bool) : Outcome :=
  match findNonFlag (tokensOf argv) with
  | none => helpOnlyOutcome
  | some cmdTok =>
    if availableCommands.contains cmdTok.value then
      resolveRest (tokensOf argv) none cmdTok [] store oracle
    else
      match lookupStore store cmdTok.value with
      | none => notFoundOutcome cmdTok.value
      | some cfg =>
        match findAvail (consumeFirst (tokensOf argv)) with
        | none => noCommandOutcome cmdTok.value
        | some cmdTok2 =>
          resolveRest (consumeFirst (tokensOf argv)) (some cfg) cmdTok2
            [cmdTok.value] store oracle

/-- Iterated token consumption: `consumeK k` marks the first `k`
unconsumed non-flag tokens consumed, in order. -/
def consumeK : Nat → List Token → List Token
  | 0, l => l
  | k + 1, l => consumeK k (consumeFirst l)

/-- Specification-side characterization of extras: the argument list
with its first `k` non-flag elements removed, order preserved. -/
def eraseNF : Nat → List String → List String
  | 0, l => l
  | _ + 1, [] => []
  | k + 1, v :: vs =>
    if strStartsWithDash v then v :: eraseNF (k + 1) vs
    else eraseNF k vs

/-- Specification-side count of the configurations whose build step or
run step fails: position `i` fails unless both the compile and the run
child process succeed. -/
def countFailures (oracle : Nat → Bool × Bool) : List ConfigDoc → Nat → Nat
  | [], _ => 0
  | _ :: rest, i =>
    (if (oracle i).1 && (oracle i).2 then 0 else 1) + countFailures oracle rest (i + 1)

/-- A descriptor with both sub-records and all five fields present. -/
def wellFormed (c : ConfigDoc) : Bool :=
  match c with
  | ⟨some ⟨some _, some _⟩, some ⟨some _, some _, some _⟩⟩ => true
  | _ => false

/-- A concrete fully populated configuration used in witnesses. -/
def sampleFull : ConfigFull :=
  ⟨⟨"x86_64", "linux"⟩, ⟨"amd64", "linux", "ubuntu"⟩⟩

/-- See `sampleFull`. -/
def sampleDoc : ConfigDoc := sampleFull.toDoc

theorem consumeK_nil : ∀ k : Nat, consumeK k ([] : List Token) = []
  | 0 => rfl
  | k + 1 => by
    show consumeK k (consumeFirst []) = []
    rw [consumeFirst, consumeK_nil k]

theorem consumeFirst_cons_skip (t : Token) (l : List Token)
    (h : (!t.flags && !t.consumed) = false) :
    consumeFirst (t :: l) = t :: consumeFirst l := by
  simp [consumeFirst, h]

theorem consumeK_cons_skip (k : Nat) (t : Token) (l : List Token)
    (h : (!t.flags && !t.consumed) = false) :
    consumeK k (t :: l) = t :: consumeK k l := by
  induction k generalizing l with
  | zero => rfl
  | succ k ih =>
    show consumeK k (consumeFirst (t :: l)) = t :: consumeK k (consumeFirst l)
    rw [consumeFirst_cons_skip t l h, ih]

theorem extrasOf_cons_consumed (t : Token) (l : List Token) (h : t.consumed = true) :
    extrasOf (t :: l) = extrasOf l := by
  simp [extrasOf, List.filter_cons, h]

theorem extrasOf_cons_unconsumed (t : Token) (l : List Token) (h : t.consumed = false) :
    extrasOf (t :: l) = t.value :: extrasOf l := by
  simp [extrasOf, List.filter_cons, h]

theorem extrasOf_tokensOf : ∀ argv : List String, extrasOf (tokensOf argv) = argv
  | [] => rfl
  | v :: vs => by
    rw [tokensOf, List.map_cons, extrasOf_cons_unconsumed _ _ rfl]
    exact congrArg (fun l => (mkToken v).value :: l) (extrasOf_tokensOf vs)

/-- After the classifier has consumed the first `k` non-flag tokens,
the unconsumed token values are exactly the original arguments with
their first `k` non-flag elements removed, in order. -/
theorem extrasOf_consumeK : ∀ (argv : List String) (k : Nat),
    extrasOf (consumeK k (tokensOf argv)) = eraseNF k argv := by
  intro argv
  induction argv with
  | nil =>
    intro k
    rw [tokensOf, List.map_nil, consumeK_nil]
    cases k <;> rfl
  | cons v vs ih =>
    intro k
    rw [tokensOf, List.map_cons]
    cases k with
    | zero => exact extrasOf_tokensOf (v :: vs)
    | succ k =>
      cases hf : strStartsWithDash v with
      | true =>
        have hskip : (!(mkToken v).flags && !(mkToken v).consumed) = false := by
          simp [mkToken, hf]
        rw [consumeK_cons_skip _ _ _ hskip, extrasOf_cons_unconsumed _ _ rfl]
        show v :: extrasOf (consumeK (k + 1) (tokensOf vs)) = eraseNF (k + 1) (v :: vs)
        rw [ih (k + 1)]
        simp [eraseNF, hf]
      | false =>
        have hc : (!(mkToken v).flags && !(mkToken v).consumed) = true := by
          simp [mkToken, hf]
        have h1 : consumeFirst (mkToken v :: tokensOf vs)
            = { mkToken v with consumed := true } :: tokensOf vs := by
          simp [consumeFirst, hc]
        show extrasOf (consumeK k (consumeFirst (mkToken v :: tokensOf vs)))
            = eraseNF (k + 1) (v :: vs)
        rw [h1, consumeK_cons_skip _ _ _ (by simp), extrasOf_cons_consumed _ _ rfl, ih k]
        simp [eraseNF, hf]

theorem zigTestArgs_shape (za zp path fv : String) (e : List String) :
    ∃ pre, zigTestArgs za zp path fv e = pre ++ fv :: e :=
  ⟨["test", "--test-no-exec", "-target", za ++ "-" ++ zp, "-femit-bin=" ++ path], by
    simp [zigTestArgs]⟩

theorem zigBuildArgs_shape (za zp path fv : String) (e : List String) :
    ∃ pre, zigBuildArgs za zp path fv e = pre ++ fv :: e :=
  ⟨["build-exe", "-target", za ++ "-" ++ zp, "-femit-bin=" ++ path], by
    simp [zigBuildArgs]⟩

/-- On a fully populated descriptor, `runTest` fails exactly when
either child process fails. -/
theorem runTest_wf_val (c : ConfigDoc) (hwf : wellFormed c = true) (fv : String)
    (e : List String) (zb db : Bool) :
    (runTest (some fv) c e zb db).1 = if zb && db then 0 else 1 := by
  rcases c with ⟨_ | ⟨_ | za, _ | zp⟩, _ | ⟨_ | da, _ | dp, _ | di⟩⟩ <;>
    simp [wellFormed] at hwf
  cases zb <;> cases db <;> simp [runTest]

/-- On a fully populated descriptor, `runProgram` fails exactly when
either child process fails. -/
theorem runProgram_wf_val (c : ConfigDoc) (hwf : wellFormed c = true) (fv : String)
    (e : List String) (zb db : Bool) :
    (runProgram (some fv) c e zb db).1 = if zb && db then 0 else 1 := by
  rcases c with ⟨_ | ⟨_ | za, _ | zp⟩, _ | ⟨_ | da, _ | dp, _ | di⟩⟩ <;>
    simp [wellFormed] at hwf
  cases zb <;> cases db <;> simp [runProgram]

/-- When the compile step fails on a fully populated descriptor,
`runTest` contributes exactly one failure and spawns only the zig
process. -/
theorem runTest_fail_spawns (c : ConfigDoc) (hwf : wellFormed c = true) (fv : String)
    (e : List String) (db : Bool) :
    ∃ zargs, runTest (some fv) c e false db = (1, [("zig", zargs)]) := by
  rcases c with ⟨_ | ⟨_ | za, _ | zp⟩, _ | ⟨_ | da, _ | dp, _ | di⟩⟩ <;>
    simp [wellFormed] at hwf
  exact ⟨_, rfl⟩

/-- See `runTest_fail_spawns`. -/
theorem runProgram_fail_spawns (c : ConfigDoc) (hwf : wellFormed c = true) (fv : String)
    (e : List String) (db : Bool) :
    ∃ zargs, runProgram (some fv) c e false db = (1, [("zig", zargs)]) := by
  rcases c with ⟨_ | ⟨_ | za, _ | zp⟩, _ | ⟨_ | da, _ | dp, _ | di⟩⟩ <;>
    simp [wellFormed] at hwf
  exact ⟨_, rfl⟩

/-- Every zig process spawned by `runTest` receives the extras verbatim
after the file argument. -/
theorem runTest_zig_spawn_tail (fv : String) (c : ConfigDoc) (e : List String) (zb db : Bool) :
    ∀ s ∈ (runTest (some fv) c e zb db).2, s.1 = "zig" → ∃ pre, s.2 = pre ++ fv :: e := by
  rcases c with ⟨cz, cd⟩
  rcases cz with _ | ⟨za, zp⟩
  · simp [runTest]
  rcases za with _ | za
  · rcases zp with _ | zp <;> simp [runTest]
  rcases zp with _ | zp
  · simp [runTest]
  cases zb with
  | false =>
    intro s hs hz
    simp [runTest] at hs
    subst hs
    exact zigTestArgs_shape za zp _ fv e
  | true =>
    rcases cd with _ | ⟨da, dp, di⟩
    · intro s hs hz
      simp [runTest] at hs
      subst hs
      exact zigTestArgs_shape za zp _ fv e
    rcases di with _ | di
    · intro s hs hz
      simp [runTest] at hs
      subst hs
      exact zigTestArgs_shape za zp _ fv e
    cases db <;>
      (intro s hs hz
       simp [runTest] at hs
       rcases hs with rfl | rfl
       · exact zigTestArgs_shape za zp _ fv e
       · simp at hz)

/-- See `runTest_zig_spawn_tail`. -/
theorem runProgram_zig_spawn_tail (fv : String) (c : ConfigDoc) (e : List String) (zb db : Bool) :
    ∀ s ∈ (runProgram (some fv) c e zb db).2, s.1 = "zig" → ∃ pre, s.2 = pre ++ fv :: e := by
  rcases c with ⟨cz, cd⟩
  rcases cz with _ | ⟨za, zp⟩
  · simp [runProgram]
  rcases za with _ | za
  · rcases zp with _ | zp <;> simp [runProgram]
  rcases zp with _ | zp
  · simp [runProgram]
  cases zb with
  | false =>
    intro s hs hz
    simp [runProgram] at hs
    subst hs
    exact zigBuildArgs_shape za zp _ fv e
  | true =>
    rcases cd with _ | ⟨da, dp, di⟩
    · intro s hs hz
      simp [runProgram] at hs
      subst hs
      exact zigBuildArgs_shape za zp _ fv e
    rcases di with _ | di
    · intro s hs hz
      simp [runProgram] at hs
      subst hs
      exact zigBuildArgs_shape za zp _ fv e
    cases db <;>
      (intro s hs hz
       simp [runProgram] at hs
       rcases hs with rfl | rfl
       · exact zigBuildArgs_shape za zp _ fv e
       · simp at hz)

/-- The dispatch loop only returns early on the `list` and `help`
cases. -/
theorem dispatchLoop_not_early (cmd : String) (h1 : cmd ≠ "list") (h2 : cmd ≠ "help")
    (file : Option String) (e : List String) (oracle : Nat → Bool × Bool) :
    ∀ (cfgs : List ConfigDoc) (i : Nat),
      (dispatchLoop cmd file e oracle cfgs i).earlyReturn = false := by
  intro cfgs
  induction cfgs with
  | nil => intro i; rfl
  | cons c rest ih =>
    intro i
    by_cases ht : cmd = "test"
    · subst ht; simp [dispatchLoop, ih (i + 1)]
    · by_cases hr : cmd = "run"
      · subst hr; simp [dispatchLoop, ht, ih (i + 1)]
      · simp [dispatchLoop, ht, hr, h1, h2, ih (i + 1)]

/-- Over fully populated descriptors, the loop's failure counter is
the number of configurations whose compile or run child process
fails. -/
theorem dispatchLoop_failures_count (cmd : String) (hcmd : cmd = "test" ∨ cmd = "run")
    (fv : String) (e : List String) (oracle : Nat → Bool × Bool) :
    ∀ (cfgs : List ConfigDoc) (i : Nat), (∀ c ∈ cfgs, wellFormed c = true) →
      (dispatchLoop cmd (some fv) e oracle cfgs i).failures = countFailures oracle cfgs i := by
  intro cfgs
  induction cfgs with
  | nil => intro i _; rfl
  | cons c rest ih =>
    intro i hwf
    have hc := hwf c (List.mem_cons_self c rest)
    have hr : ∀ x ∈ rest, wellFormed x = true := fun x hx => hwf x (List.mem_cons_of_mem c hx)
    cases hcmd with
    | inl h =>
      subst h
      simp [dispatchLoop, countFailures, ih (i + 1) hr, runTest_wf_val c hc fv e]
    | inr h =>
      subst h
      simp [dispatchLoop, countFailures, ih (i + 1) hr, runProgram_wf_val c hc fv e]

/-- Every zig process spawned anywhere in the dispatch loop receives
the extras verbatim after the file argument. -/
theorem dispatchLoop_zig_spawn_tail (cmd : String) (fv : String) (e : List String)
    (oracle : Nat → Bool × Bool) :
    ∀ (cfgs : List ConfigDoc) (i : Nat),
      ∀ s ∈ (dispatchLoop cmd (some fv) e oracle cfgs i).spawns,
        s.1 = "zig" → ∃ pre, s.2 = pre ++ fv :: e := by
  intro cfgs
  induction cfgs with
  | nil => intro i s hs; simp [dispatchLoop] at hs
  | cons c rest ih =>
    intro i s hs hz
    by_cases ht : cmd = "test"
    · subst ht
      simp [dispatchLoop] at hs
      rcases hs with hs | hs
      · exact runTest_zig_spawn_tail fv c e _ _ s hs hz
      · exact ih (i + 1) s hs hz
    · by_cases hr : cmd = "run"
      · subst hr
        simp [dispatchLoop, ht] at hs
        rcases hs with hs | hs
        · exact runProgram_zig_spawn_tail fv c e _ _ s hs hz
        · exact ih (i + 1) s hs hz
      · by_cases hl : cmd = "list"
        · subst hl; simp [dispatchLoop] at hs
        · by_cases hh : cmd = "help"
          · subst hh; simp [dispatchLoop] at hs
          · simp [dispatchLoop, ht, hr, hl, hh] at hs
            exact ih (i + 1) s hs hz

/-- Inversion of `resolveRest` at a reached dispatch: the outcome is
the `finish` outcome of the recorded invocation, the recorded selector
lookups are `lk`, and for `run`/`test` the file token is present and
the extras are the unconsumed token values after command and file
consumption. -/
theorem resolveRest_dispatch (tokens : List Token) (selected : Option ConfigDoc)
    (cmdTok : Token) (lk : List String) (store : Store) (oracle : Nat → Bool × Bool) :
    ∀ info, (resolveRest tokens selected cmdTok lk store oracle).dispatched = some info →
      resolveRest tokens selected cmdTok lk store oracle = finish lk oracle info
      ∧ (resolveRest tokens selected cmdTok lk store oracle).lookups = lk
      ∧ ((["run", "test"]).contains info.command = true →
          (∃ fv, info.file = some fv)
          ∧ info.extras = extrasOf (consumeFirst (consumeFirst tokens))) := by
  intro info hinfo
  unfold resolveRest at hinfo ⊢
  by_cases hrt : (["run", "test"]).contains cmdTok.value = true
  · rw [if_pos hrt] at hinfo ⊢
    cases hf : findAvail (consumeFirst tokens) with
    | none =>
      rw [hf] at hinfo
      simp [expectedFilenameOutcome] at hinfo
    | some ft =>
      rw [hf] at hinfo
      have h1 : ({ command := cmdTok.value, file := some ft.value,
                   extras := extrasOf (consumeFirst (consumeFirst tokens)),
                   configs := selectedConfigs selected store } : DispatchInfo) = info := by
        simpa [finish] using hinfo
      subst h1
      exact ⟨rfl, rfl, fun _ => ⟨⟨ft.value, rfl⟩, rfl⟩⟩
  · rw [if_neg hrt] at hinfo ⊢
    have h1 : ({ command := cmdTok.value, file := none,
                 extras := extrasOf (consumeFirst tokens),
                 configs := selectedConfigs selected store } : DispatchInfo) = info := by
      simpa [finish] using hinfo
    subst h1
    exact ⟨rfl, rfl, fun hcon => absurd hcon hrt⟩

/-- Inversion of `mainRun` at a reached dispatch: the outcome is the
`finish` outcome of the recorded invocation, and for `run`/`test` the
file token is present and the extras are the original arguments minus
the consumed positional tokens (selector if any, command, file). -/
theorem mainRun_dispatch (argv : List String) (store : Store) (oracle : Nat → Bool × Bool) :
    ∀ info : DispatchInfo, (mainRun argv store oracle).dispatched = some info →
      mainRun argv store oracle = finish (mainRun argv store oracle).lookups oracle info
      ∧ ((["run", "test"]).contains info.command = true →
          (∃ fv, info.file = some fv)
          ∧ info.extras = eraseNF ((mainRun argv store oracle).lookups.length + 2) argv) := by
  intro info hinfo
  unfold mainRun at hinfo ⊢
  cases h0 : findNonFlag (tokensOf argv) with
  | none =>
    rw [h0] at hinfo
    simp [helpOnlyOutcome] at hinfo
  | some t =>
    rw [h0] at hinfo
    dsimp only at hinfo ⊢
    by_cases hc : availableCommands.contains t.value = true
    · rw [if_pos hc] at hinfo ⊢
      obtain ⟨he, hlk, hrt⟩ := resolveRest_dispatch (tokensOf argv) none t [] store oracle info hinfo
      refine ⟨by rw [hlk]; exact he, fun hcon => ?_⟩
      obtain ⟨hfv, hex⟩ := hrt hcon
      refine ⟨hfv, ?_⟩
      rw [hex, hlk]
      simpa using extrasOf_consumeK argv 2
    · rw [if_neg hc] at hinfo ⊢
      cases h1 : lookupStore store t.value with
      | none =>
        rw [h1] at hinfo
        simp [notFoundOutcome] at hinfo
      | some cfg =>
        rw [h1] at hinfo
        dsimp only at hinfo ⊢
        cases h2 : findAvail (consumeFirst (tokensOf argv)) with
        | none =>
          rw [h2] at hinfo
          simp [noCommandOutcome] at hinfo
        | some t2 =>
          rw [h2] at hinfo
          dsimp only at hinfo ⊢
          obtain ⟨he, hlk, hrt⟩ := resolveRest_dispatch (consumeFirst (tokensOf argv))
            (some cfg) t2 [t.value] store oracle info hinfo
          refine ⟨by rw [hlk]; exact he, fun hcon => ?_⟩
          obtain ⟨hfv, hex⟩ := hrt hcon
          refine ⟨hfv, ?_⟩
          rw [hex, hlk]
          simpa using extrasOf_consumeK argv 3

/-- C1: for every invocation that reaches the dispatcher with command
`test` or `run` (over descriptors satisfying the store invariant that
both sub-records are populated), the failure counter equals the number
of selected configurations for which the build step or the run step
fails, and the process exit status is 0 when the counter is 0 and 1
otherwise. -/
theorem c1_failure_counter_and_exit (argv : List String) (store : Store)
    (oracle : Nat → Bool × Bool) (info : DispatchInfo)
    (hd : (mainRun argv store oracle).dispatched = some info)
    (hcmd : info.command = "test" ∨ info.command = "run")
    (hwf : ∀ c ∈ info.configs, wellFormed c = true) :
    (mainRun argv store oracle).failures = some (countFailures oracle info.configs 0)
    ∧ (mainRun argv store oracle).exit
        = (if countFailures oracle info.configs 0 = 0 then 0 else 1) := by
  obtain ⟨he, hrt⟩ := mainRun_dispatch argv store oracle info hd
  have hcon : (["run", "test"]).contains info.command = true := by
    rcases hcmd with h | h <;> simp [h]
  obtain ⟨⟨fv, hfv⟩, -⟩ := hrt hcon
  have hne : (dispatchLoop info.command info.file info.extras oracle info.configs 0).earlyReturn
      = false := by
    rcases hcmd with h | h <;> rw [h] <;>
      exact dispatchLoop_not_early _ (by decide) (by decide) _ _ _ _ _
  have hfl : (dispatchLoop info.command info.file info.extras oracle info.configs 0).failures
      = countFailures oracle info.configs 0 := by
    rw [hfv]
    exact dispatchLoop_failures_count info.command hcmd fv info.extras oracle info.configs 0 hwf
  constructor
  · rw [he]
    simp [finish, hne, hfl]
  · rw [he]
    simp [finish, hne, hfl, exitCode]

/-- Witness for C1 at `zdq test a.zig` over a single configuration with
both child processes succeeding. -/
theorem c1_failure_counter_and_exit_w :
    (mainRun ["test", "a.zig"] [("amd64", sampleDoc)] (fun _ => (true, true))).failures
        = some (countFailures (fun _ => (true, true)) [sampleDoc] 0)
    ∧ (mainRun ["test", "a.zig"] [("amd64", sampleDoc)] (fun _ => (true, true))).exit
        = (if countFailures (fun _ => (true, true)) [sampleDoc] 0 = 0 then 0 else 1) :=
  c1_failure_counter_and_exit ["test", "a.zig"] [("amd64", sampleDoc)]
    (fun _ => (true, true)) ⟨"test", some "a.zig", [], [sampleDoc]⟩
    (by decide) (Or.inl rfl) (by decide)

/-- C2: for every configuration whose compile step fails, the container
run step for that configuration is never invoked (the configuration's
only spawn is the zig process), it contributes exactly 1 to the failure
count, and the remaining configurations are still processed. -/
theorem c2_compile_failure_short_circuit (cmd : String)
    (hcmd : cmd = "test" ∨ cmd = "run") (fv : String) (c : ConfigDoc)
    (rest : List ConfigDoc) (e : List String) (oracle : Nat → Bool × Bool) (i : Nat)
    (hwf : wellFormed c = true) (hfail : (oracle i).1 = false) :
    ∃ zargs,
      (dispatchLoop cmd (some fv) e oracle (c :: rest) i).spawns
        = ("zig", zargs) :: (dispatchLoop cmd (some fv) e oracle rest (i + 1)).spawns
      ∧ (dispatchLoop cmd (some fv) e oracle (c :: rest) i).failures
        = 1 + (dispatchLoop cmd (some fv) e oracle rest (i + 1)).failures := by
  rcases hcmd with h | h
  · subst h
    obtain ⟨zargs, hz⟩ := runTest_fail_spawns c hwf fv e (oracle i).2
    have hz2 : runTest (some fv) c e (oracle i).1 (oracle i).2 = (1, [("zig", zargs)]) := by
      rw [hfail]; exact hz
    exact ⟨zargs, by simp [dispatchLoop, hz2], by simp [dispatchLoop, hz2]⟩
  · subst h
    obtain ⟨zargs, hz⟩ := runProgram_fail_spawns c hwf fv e (oracle i).2
    have hz2 : runProgram (some fv) c e (oracle i).1 (oracle i).2 = (1, [("zig", zargs)]) := by
      rw [hfail]; exact hz
    exact ⟨zargs, by simp [dispatchLoop, hz2], by simp [dispatchLoop, hz2]⟩

/-- Witness for C2: a failing compile on the only configuration. -/
theorem c2_compile_failure_short_circuit_w :
    ∃ zargs,
      (dispatchLoop "test" (some "a.zig") [] (fun _ => (false, true)) [sampleDoc] 0).spawns
        = ("zig", zargs) :: (dispatchLoop "test" (some "a.zig") [] (fun _ => (false, true)) [] 1).spawns
      ∧ (dispatchLoop "test" (some "a.zig") [] (fun _ => (false, true)) [sampleDoc] 0).failures
        = 1 + (dispatchLoop "test" (some "a.zig") [] (fun _ => (false, true)) [] 1).failures :=
  c2_compile_failure_short_circuit "test" (Or.inl rfl) "a.zig" sampleDoc [] []
    (fun _ => (false, true)) 0 (by decide) rfl

/-- C3 counterexample: `zdq toString run f.zig` against the default
store.  The selector `toString` is not a command name and not a key of
the store, yet JS bracket lookup finds the inherited, truthy
`Object.prototype.toString`, so the program does not render the
listing, emits no not-found error, and resolves the `run` command
anyway — contradicting the claim at this input. -/
theorem c3_counterexample :
    availableCommands.contains "toString" = false
    ∧ ((loadConfigurations "arm" none).find? (fun p => p.1 == "toString")) = none
    ∧ (mainRun ["toString", "run", "f.zig"] (loadConfigurations "arm" none)
        (fun _ => (true, true))).listingCount = 0
    ∧ (mainRun ["toString", "run", "f.zig"] (loadConfigurations "arm" none)
        (fun _ => (true, true))).errors = []
    ∧ (mainRun ["toString", "run", "f.zig"] (loadConfigurations "arm" none)
        (fun _ => (true, true))).dispatched
        = some ⟨"run", some "f.zig", [], [⟨none, none⟩]⟩ := by
  decide

/-- C3 (amended): when the first unconsumed positional token is neither
a command name, nor a key of the configuration store, nor one of the
`Object.prototype` member names inherited by plain objects, the program
renders the configuration listing, emits
`error: configuration "<name>" not found` to the error stream and exits
with status 1, without resolving a command and without spawning any
process.  (For an inherited prototype name the truthy inherited member
is taken as the selected configuration and resolution proceeds.) -/
theorem c3_unknown_selector (argv : List String) (store : Store)
    (oracle : Nat → Bool × Bool) (t : Token)
    (h0 : findNonFlag (tokensOf argv) = some t)
    (hc : availableCommands.contains t.value = false)
    (hk : (store.find? (fun p => p.1 == t.value)) = none)
    (hp : objectProtoProps.contains t.value = false) :
    (mainRun argv store oracle).exit = 1
    ∧ (mainRun argv store oracle).listingCount = 1
    ∧ (mainRun argv store oracle).errors
        = ["error: configuration \"" ++ t.value ++ "\" not found\n"]
    ∧ (mainRun argv store oracle).dispatched = none
    ∧ (mainRun argv store oracle).spawns = [] := by
  have hp2 : t.value ∉ objectProtoProps := by simpa using hp
  have hl : lookupStore store t.value = none := by
    simp [lookupStore, hk, hp2]
  have hm : mainRun argv store oracle = notFoundOutcome t.value := by
    unfold mainRun
    rw [h0]
    dsimp only
    rw [if_neg (by simpa using hc), hl]
  rw [hm]
  exact ⟨rfl, rfl, rfl, rfl, rfl⟩

/-- Witness for C3: `zdq badconfig run file.src` against the default
store (whose only key is `amd64`). -/
theorem c3_unknown_selector_w :
    (mainRun ["badconfig", "run", "file.src"] (loadConfigurations "arm" none)
        (fun _ => (true, true))).exit = 1
    ∧ (mainRun ["badconfig", "run", "file.src"] (loadConfigurations "arm" none)
        (fun _ => (true, true))).listingCount = 1
    ∧ (mainRun ["badconfig", "run", "file.src"] (loadConfigurations "arm" none)
        (fun _ => (true, true))).errors
        = ["error: configuration \"" ++ "badconfig" ++ "\" not found\n"]
    ∧ (mainRun ["badconfig", "run", "file.src"] (loadConfigurations "arm" none)
        (fun _ => (true, true))).dispatched = none
    ∧ (mainRun ["badconfig", "run", "file.src"] (loadConfigurations "arm" none)
        (fun _ => (true, true))).spawns = [] :=
  c3_unknown_selector ["badconfig", "run", "file.src"] (loadConfigurations "arm" none)
    (fun _ => (true, true)) ⟨"badconfig", false, false⟩
    (by decide) (by decide) (by decide) (by decide)

/-- C4 (code bug): with the default store and arguments `["amd64"]` a
selector is matched but no command token follows; the program prints
help and exits 1 as the claim states, but the message written to the
error stream is the source's misspelled `expected command arument`
(src/index.js line 31), not `expected command argument`. -/
theorem c4_missing_command_message :
    mainRun ["amd64"] (loadConfigurations "arm" none) (fun _ => (true, true))
      = noCommandOutcome "amd64"
    ∧ (noCommandOutcome "amd64").errors = ["error: expected command arument\n"]
    ∧ (noCommandOutcome "amd64").helpCount = 1
    ∧ (noCommandOutcome "amd64").exit = 1 :=
  ⟨by decide, rfl, rfl, rfl⟩

/-- C5: whenever the resolved command is `test` or `run` and no
unconsumed positional token remains, the program emits
`error: expected filename`, exits with status 1, prints no help text
and spawns no process.  The two disjuncts cover command-first and
selector-then-command resolution. -/
theorem c5_missing_filename (argv : List String) (store : Store)
    (oracle : Nat → Bool × Bool)
    (h : (∃ t, findNonFlag (tokensOf argv) = some t
            ∧ (t.value = "run" ∨ t.value = "test")
            ∧ findAvail (consumeFirst (tokensOf argv)) = none)
       ∨ (∃ t cfg t2, findNonFlag (tokensOf argv) = some t
            ∧ availableCommands.contains t.value = false
            ∧ lookupStore store t.value = some cfg
            ∧ findAvail (consumeFirst (tokensOf argv)) = some t2
            ∧ (t2.value = "run" ∨ t2.value = "test")
            ∧ findAvail (consumeFirst (consumeFirst (tokensOf argv))) = none)) :
    (mainRun argv store oracle).exit = 1
    ∧ (mainRun argv store oracle).errors = ["error: expected filename\n"]
    ∧ (mainRun argv store oracle).helpCount = 0
    ∧ (mainRun argv store oracle).spawns = [] := by
  rcases h with ⟨t, h0, hv, hf⟩ | ⟨t, cfg, t2, h0, hc, hl, h2, hv2, hf⟩
  · have hc : availableCommands.contains t.value = true := by
      rcases hv with h | h <;> simp [availableCommands, h]
    have hrt : (["run", "test"]).contains t.value = true := by
      rcases hv with h | h <;> simp [h]
    have hm : mainRun argv store oracle = expectedFilenameOutcome [] := by
      unfold mainRun
      rw [h0]
      dsimp only
      rw [if_pos hc]
      unfold resolveRest
      rw [if_pos hrt, hf]
    rw [hm]
    exact ⟨rfl, rfl, rfl, rfl⟩
  · have hrt : (["run", "test"]).contains t2.value = true := by
      rcases hv2 with h | h <;> simp [h]
    have hm : mainRun argv store oracle = expectedFilenameOutcome [t.value] := by
      unfold mainRun
      rw [h0]
      dsimp only
      rw [if_neg (by simpa using hc), hl]
      dsimp only
      rw [h2]
      dsimp only
      unfold resolveRest
      rw [if_pos hrt, hf]
    rw [hm]
    exact ⟨rfl, rfl, rfl, rfl⟩

/-- Witness for C5: bare `zdq test` with no filename. -/
theorem c5_missing_filename_w :
    (mainRun ["test"] [("amd64", sampleDoc)] (fun _ => (true, true))).exit = 1
    ∧ (mainRun ["test"] [("amd64", sampleDoc)] (fun _ => (true, true))).errors
        = ["error: expected filename\n"]
    ∧ (mainRun ["test"] [("amd64", sampleDoc)] (fun _ => (true, true))).helpCount = 0
    ∧ (mainRun ["test"] [("amd64", sampleDoc)] (fun _ => (true, true))).spawns = [] :=
  c5_missing_filename ["test"] [("amd64", sampleDoc)] (fun _ => (true, true))
    (Or.inl ⟨⟨"test", false, false⟩, by decide, Or.inr rfl, by decide⟩)

/-- C6: when the first positional token is one of the four command
names, no configuration-store selector lookup occurs, and any dispatch
that is reached applies the command to all configurations of the store
in insertion order. -/
theorem c6_command_first_no_lookup (argv : List String) (store : Store)
    (oracle : Nat → Bool × Bool) (t : Token)
    (h0 : findNonFlag (tokensOf argv) = some t)
    (hc : availableCommands.contains t.value = true) :
    (mainRun argv store oracle).lookups = []
    ∧ ∀ info, (mainRun argv store oracle).dispatched = some info →
        info.configs = store.map Prod.snd := by
  have hm : mainRun argv store oracle = resolveRest (tokensOf argv) none t [] store oracle := by
    unfold mainRun
    rw [h0]
    dsimp only
    rw [if_pos hc]
  rw [hm]
  unfold resolveRest
  by_cases hrt : (["run", "test"]).contains t.value = true
  · rw [if_pos hrt]
    cases hf : findAvail (consumeFirst (tokensOf argv)) with
    | none =>
      exact ⟨rfl, fun info hi => by simp [expectedFilenameOutcome] at hi⟩
    | some ft =>
      refine ⟨rfl, fun info hi => ?_⟩
      have h1 : ({ command := t.value, file := some ft.value,
                   extras := extrasOf (consumeFirst (consumeFirst (tokensOf argv))),
                   configs := selectedConfigs none store } : DispatchInfo) = info := by
        simpa [finish] using hi
      rw [← h1]
      rfl
  · rw [if_neg hrt]
    refine ⟨rfl, fun info hi => ?_⟩
    have h1 : ({ command := t.value, file := none,
                 extras := extrasOf (consumeFirst (tokensOf argv)),
                 configs := selectedConfigs none store } : DispatchInfo) = info := by
      simpa [finish] using hi
    rw [← h1]
    rfl

/-- Witness for C6: `zdq test a.zig` over a two-entry store. -/
theorem c6_command_first_no_lookup_w :
    (mainRun ["test", "a.zig"] [("amd64", sampleDoc), ("arm64", sampleDoc)]
        (fun _ => (true, true))).lookups = []
    ∧ ∀ info, (mainRun ["test", "a.zig"] [("amd64", sampleDoc), ("arm64", sampleDoc)]
        (fun _ => (true, true))).dispatched = some info →
        info.configs = ([("amd64", sampleDoc), ("arm64", sampleDoc)] : Store).map Prod.snd :=
  c6_command_first_no_lookup ["test", "a.zig"] [("amd64", sampleDoc), ("arm64", sampleDoc)]
    (fun _ => (true, true)) ⟨"test", false, false⟩ (by decide) (by decide)

/-- C7: for every dispatched `test` or `run` invocation the file token
is present, the extras are exactly the arguments minus the consumed
positional tokens (selector if any, command, file) in original order,
and every zig compiler invocation receives them verbatim after the
file argument. -/
theorem c7_extras_passthrough (argv : List String) (store : Store)
    (oracle : Nat → Bool × Bool) (info : DispatchInfo)
    (hd : (mainRun argv store oracle).dispatched = some info)
    (hcmd : info.command = "test" ∨ info.command = "run") :
    ∃ fv, info.file = some fv
      ∧ info.extras = eraseNF ((mainRun argv store oracle).lookups.length + 2) argv
      ∧ ∀ s ∈ (mainRun argv store oracle).spawns, s.1 = "zig" →
          ∃ pre, s.2 = pre ++ fv :: info.extras := by
  obtain ⟨he, hrt⟩ := mainRun_dispatch argv store oracle info hd
  have hcon : (["run", "test"]).contains info.command = true := by
    rcases hcmd with h | h <;> simp [h]
  obtain ⟨⟨fv, hfv⟩, hex⟩ := hrt hcon
  refine ⟨fv, hfv, hex, ?_⟩
  intro s hs hz
  rw [he] at hs
  have hs2 : s ∈ (dispatchLoop info.command info.file info.extras oracle info.configs 0).spawns := by
    simpa [finish] using hs
  rw [hfv] at hs2
  exact dispatchLoop_zig_spawn_tail info.command fv info.extras oracle info.configs 0 s hs2 hz

/-- Witness for C7: `zdq run a.zig --release` over one configuration
(the spec's Scenario D). -/
theorem c7_extras_passthrough_w :
    ∃ fv, (DispatchInfo.mk "run" (some "a.zig") ["--release"] [sampleDoc]).file = some fv
      ∧ (DispatchInfo.mk "run" (some "a.zig") ["--release"] [sampleDoc]).extras
          = eraseNF ((mainRun ["run", "a.zig", "--release"] [("amd64", sampleDoc)]
              (fun _ => (true, true))).lookups.length + 2) ["run", "a.zig", "--release"]
      ∧ ∀ s ∈ (mainRun ["run", "a.zig", "--release"] [("amd64", sampleDoc)]
            (fun _ => (true, true))).spawns, s.1 = "zig" →
          ∃ pre, s.2 = pre ++ fv ::
            (DispatchInfo.mk "run" (some "a.zig") ["--release"] [sampleDoc]).extras :=
  c7_extras_passthrough ["run", "a.zig", "--release"] [("amd64", sampleDoc)]
    (fun _ => (true, true)) ⟨"run", some "a.zig", ["--release"], [sampleDoc]⟩
    (by decide) (Or.inr rfl)

/-- C8 counterexample: with an empty configuration store (a persisted
file parsing to the empty object), `zdq list` resolves the `list`
command with zero selected configurations and the listing is rendered
zero times, not exactly once as the claim states for the zero case. -/
theorem c8_counterexample :
    (mainRun ["list"] [] (fun _ => (true, true))).dispatched
        = some ⟨"list", none, [], []⟩
    ∧ (mainRun ["list"] [] (fun _ => (true, true))).listingCount = 0
    ∧ (mainRun ["list"] [] (fun _ => (true, true))).exit = 0 := by
  decide

/-- C8 (amended): for every dispatched `list` or `help` invocation the
rendering runs exactly once when at least one configuration is
selected and zero times when zero are selected, the process runner is
never invoked, and the process exits with status 0. -/
theorem c8_list_help_render (argv : List String) (store : Store)
    (oracle : Nat → Bool × Bool) (info : DispatchInfo)
    (hd : (mainRun argv store oracle).dispatched = some info)
    (hcmd : info.command = "list" ∨ info.command = "help") :
    (mainRun argv store oracle).spawns = []
    ∧ (mainRun argv store oracle).exit = 0
    ∧ (info.command = "list" →
        (mainRun argv store oracle).listingCount = (if info.configs = [] then 0 else 1)
        ∧ (mainRun argv store oracle).helpCount = 0)
    ∧ (info.command = "help" →
        (mainRun argv store oracle).helpCount = (if info.configs = [] then 0 else 1)
        ∧ (mainRun argv store oracle).listingCount = 0) := by
  obtain ⟨he, -⟩ := mainRun_dispatch argv store oracle info hd
  rw [he]
  rcases hcmd with h | h <;> rw [h] <;>
    cases hcfg : info.configs with
  | nil => simp [finish, dispatchLoop, exitCode, h, hcfg]
  | cons c rest => simp [finish, dispatchLoop, exitCode, h, hcfg]

/-- Witness for C8 (amended): `zdq list` over a one-entry store. -/
theorem c8_list_help_render_w :
    (mainRun ["list"] [("amd64", sampleDoc)] (fun _ => (true, true))).spawns = []
    ∧ (mainRun ["list"] [("amd64", sampleDoc)] (fun _ => (true, true))).exit = 0
    ∧ ((DispatchInfo.mk "list" none [] [sampleDoc]).command = "list" →
        (mainRun ["list"] [("amd64", sampleDoc)] (fun _ => (true, true))).listingCount
          = (if (DispatchInfo.mk "list" none [] [sampleDoc]).configs = [] then 0 else 1)
        ∧ (mainRun ["list"] [("amd64", sampleDoc)] (fun _ => (true, true))).helpCount = 0)
    ∧ ((DispatchInfo.mk "list" none [] [sampleDoc]).command = "help" →
        (mainRun ["list"] [("amd64", sampleDoc)] (fun _ => (true, true))).helpCount
          = (if (DispatchInfo.mk "list" none [] [sampleDoc]).configs = [] then 0 else 1)
        ∧ (mainRun ["list"] [("amd64", sampleDoc)] (fun _ => (true, true))).listingCount = 0) :=
  c8_list_help_render ["list"] [("amd64", sampleDoc)] (fun _ => (true, true))
    ⟨"list", none, [], [sampleDoc]⟩ (by decide) (Or.inl rfl)

/-- C9: whenever reading or parsing the persisted configuration file
fails, the store is exactly one entry whose key is the container
architecture: on an `x64` host an `aarch64` compile target and `arm64`
container architecture, on any other host `x86_64` and `amd64`; the
platform is `linux` and the image `ubuntu`. -/
theorem c9_default_store (hostArch : String) :
    loadConfigurations hostArch none
      = [( (if hostArch = "x64" then "arm64" else "amd64"),
           { zig := some { arch := some (if hostArch = "x64" then "aarch64" else "x86_64"),
                           platform := some "linux" },
             docker := some { arch := some (if hostArch = "x64" then "arm64" else "amd64"),
                              platform := some "linux",
                              image := some "ubuntu" } } )] := by
  by_cases hx : hostArch = "x64" <;>
    simp [loadConfigurations, getDefaultConfig, ConfigFull.toDoc, hx]

/-- Witness for C9 on an `x64` host. -/
theorem c9_default_store_w :
    loadConfigurations "x64" none
      = [( (if ("x64" : String) = "x64" then "arm64" else "amd64"),
           { zig := some { arch := some (if ("x64" : String) = "x64" then "aarch64" else "x86_64"),
                           platform := some "linux" },
             docker := some { arch := some (if ("x64" : String) = "x64" then "arm64" else "amd64"),
                              platform := some "linux",
                              image := some "ubuntu" } } )] :=
  c9_default_store "x64"

/-- C10 counterexample: a descriptor lacking only the `docker.arch`
field throws nothing; the docker step still runs (with a platform
string containing the literal text `undefined`), and when both child
processes exit 0 the configuration contributes zero failures, not
exactly one. -/
theorem c10_counterexample :
    (ConfigDoc.mk (some ⟨some "x86_64", some "linux"⟩)
        (some ⟨none, some "linux", some "ubuntu"⟩)).docker
      = some ⟨none, some "linux", some "ubuntu"⟩
    ∧ (runTest (some "a.zig")
        (ConfigDoc.mk (some ⟨some "x86_64", some "linux"⟩)
          (some ⟨none, some "linux", some "ubuntu"⟩)) [] true true).1 = 0
    ∧ ((runTest (some "a.zig")
        (ConfigDoc.mk (some ⟨some "x86_64", some "linux"⟩)
          (some ⟨none, some "linux", some "ubuntu"⟩)) [] true true).2).length = 2 := by
  decide

/-- C10 (amended): a descriptor lacking the `zig` sub-record, either
`zig` field, the `docker` sub-record, or the `docker.image` field makes
the per-configuration attempt throw before the container step; the
error is caught inside the per-configuration try block and the
configuration counts as exactly one failure regardless of child process
outcomes, for both `test` and `run`, instead of crashing the process or
being reported as a usage error.  (Descriptors lacking only
`docker.arch` or `docker.platform` instead proceed with a degenerate
platform string and fail only if a child process fails.) -/
theorem c10_missing_fields_one_failure (c : ConfigDoc) (fv : String)
    (e : List String) (zb db : Bool)
    (h : c.zig = none
       ∨ (∃ z, c.zig = some z ∧ (z.arch = none ∨ z.platform = none))
       ∨ c.docker = none
       ∨ (∃ d, c.docker = some d ∧ d.image = none)) :
    (runTest (some fv) c e zb db).1 = 1 ∧ (runProgram (some fv) c e zb db).1 = 1 := by
  rcases c with ⟨cz, cd⟩
  rcases h with h | ⟨z, hz, hf⟩ | h | ⟨d, hd2, hf⟩
  · dsimp only at h
    subst h
    exact ⟨rfl, rfl⟩
  · dsimp only at hz
    subst hz
    rcases z with ⟨za, zp⟩
    dsimp only at hf
    rcases hf with hf | hf
    · subst hf
      cases zp <;> exact ⟨rfl, rfl⟩
    · subst hf
      cases za <;> exact ⟨rfl, rfl⟩
  · dsimp only at h
    subst h
    rcases cz with _ | ⟨_ | za, _ | zp⟩ <;> cases zb <;> exact ⟨rfl, rfl⟩
  · dsimp only at hd2
    subst hd2
    rcases d with ⟨da, dp, di⟩
    dsimp only at hf
    subst hf
    rcases cz with _ | ⟨_ | za, _ | zp⟩ <;> cases zb <;> exact ⟨rfl, rfl⟩

/-- Witness for C10 (amended): a descriptor with no `zig` sub-record. -/
theorem c10_missing_fields_one_failure_w :
    (runTest (some "a.zig")
        (ConfigDoc.mk none (some ⟨some "amd64", some "linux", some "ubuntu"⟩))
        [] true true).1 = 1
    ∧ (runProgram (some "a.zig")
        (ConfigDoc.mk none (some ⟨some "amd64", some "linux", some "ubuntu"⟩))
        [] true true).1 = 1 :=
  c10_missing_fields_one_failure
    (ConfigDoc.mk none (some ⟨some "amd64", some "linux", some "ubuntu"⟩))
    "a.zig" [] true true (Or.inl rfl)

end Zdq
